import Mathlib

/-!
Shallow embedding of the CentralInstance reconciliation core of
`stehessel/provider-redhat` (package `centralinstance`, together with the
status vocabulary of package `rhacs` and the relevant parts of the
`v1alpha1` API types).

Modelling conventions:
* Go strings are `String`; Go `error` values are `Option String` carrying the
  message (`none` = nil error); `errors.Wrap(err, msg)` is `wrapErr msg err`.
* The fleet-manager client (`fleetmanager.PublicAPI`) is a record of response
  functions; each lifecycle action additionally returns the list of remote
  calls it issued, so that "no remote call is made" is expressible.
* Crossplane `xpv1.Condition` values of type `Ready` are modelled by their
  semantic content (`Creating`, `Available`, `Deleting`, `Unavailable`);
  transition timestamps are abstracted away.  `SetConditions` with a `Ready`
  condition overwrites the stored `Ready` condition.
* The generic `resource.Managed` handle is a sum type; the runtime type
  assertion `mg.(*v1alpha1.CentralInstance)` is a pattern match on it.
* Timestamps (`metav1.Time`) are opaque naturals copied through unchanged.
-/

namespace ProviderRedhat

/-- Central request states in fleet manager (package `rhacs`). -/
def CentralRequestStatusAccepted : String := "accepted"

/-- Central request state `preparing` (package `rhacs`). -/
def CentralRequestStatusPreparing : String := "preparing"

/-- Central request state `provisioning` (package `rhacs`). -/
def CentralRequestStatusProvisioning : String := "provisioning"

/-- Central request state `ready` (package `rhacs`). -/
def CentralRequestStatusReady : String := "ready"

/-- Central request state `failed` (package `rhacs`). -/
def CentralRequestStatusFailed : String := "failed"

/-- Central request state `deprovision` (package `rhacs`). -/
def CentralRequestStatusDeprovision : String := "deprovision"

/-- Central request state `deleting` (package `rhacs`). -/
def CentralRequestStatusDeleting : String := "deleting"

/-- Error message constants of package `centralinstance`. -/
def errNotCentralInstance : String := "managed resource is not a CentralInstance custom resource"

/-- `errGetFailed` of package `centralinstance`. -/
def errGetFailed : String := "cannot get central instance"

/-- `errCreateFailed` of package `centralinstance`. -/
def errCreateFailed : String := "cannot create central instance"

/-- `errUpdateFailed` of package `centralinstance`. -/
def errUpdateFailed : String := "cannot update central instance"

/-- `errDeleteFailed` of package `centralinstance`. -/
def errDeleteFailed : String := "cannot delete central instance"

/-- `errors.Wrap err msg` of github.com/pkg/errors: nil stays nil, otherwise
the message is prefixed with `msg ++ ": "`. -/
def wrapErr (msg : String) : Option String → Option String
  | none => none
  | some e => some (msg ++ ": " ++ e)

/-- `v1alpha1.CentralInstanceParameters`: the configurable fields of a
CentralInstance (`Spec.ForProvider`). -/
structure CentralInstanceParameters where
  name : String
  cloudProvider : String
  region : String
  multiAZ : Bool
  cloudAccountID : String
deriving DecidableEq, Repr

/-- `public.CentralRequest` of the fleet-manager API: the remote entity
record, restricted to the fields the controller reads. -/
structure CentralRequest where
  id : String
  name : String
  cloudProvider : String
  region : String
  multiAz : Bool
  cloudAccountId : String
  status : String
  centralDataURL : String
  centralUIURL : String
  createdAt : Nat
  updatedAt : Nat
  failedReason : String
  href : String
  instanceType : String
  kind : String
  owner : String
  version : String
deriving DecidableEq, Repr

/-- `public.CentralRequestPayload`: the creation payload sent to the remote
API by `Create`. -/
structure CentralRequestPayload where
  cloudAccountId : String
  cloudProvider : String
  multiAz : Bool
  name : String
  region : String
deriving DecidableEq, Repr

/-- `v1alpha1.CentralInstanceObservation`: the observable fields mirrored
from the remote entity (`Status.AtProvider`). -/
structure CentralInstanceObservation where
  centralDataURL : String
  centralUIURL : String
  cloudAccountID : String
  cloudProvider : String
  createdAt : Nat
  failedReason : String
  href : String
  id : String
  instanceType : String
  kind : String
  multiAZ : Bool
  name : String
  owner : String
  region : String
  status : String
  updatedAt : Nat
  version : String
deriving DecidableEq, Repr

/-- The semantic content of an `xpv1` Ready-type condition: `xpv1.Creating()`,
`xpv1.Available()`, `xpv1.Deleting()`, `xpv1.Unavailable()`.  Transition
timestamps are abstracted away. -/
inductive ConditionValue where
  | creating
  | available
  | deleting
  | unavailable
deriving DecidableEq, Repr

/-- The `v1alpha1.CentralInstance` managed resource, restricted to the state
the controller reads and writes: the `crossplane.io/external-name`
annotation, the desired spec, the observation record, and the stored
Ready-type condition (`none` when no Ready condition has been set). -/
structure CentralInstance where
  externalName : String
  forProvider : CentralInstanceParameters
  atProvider : CentralInstanceObservation
  readyCondition : Option ConditionValue
deriving DecidableEq, Repr

/-- `resource.Managed`: the generic managed-resource handle handed to the
external client; the runtime type assertion in the Go source is a pattern
match on this sum. -/
inductive Managed where
  | centralInstance (cr : CentralInstance)
  | otherKind
deriving DecidableEq, Repr

/-- `cr.SetConditions(c)` for a Ready-type condition: overwrite the stored
Ready condition. -/
def setConditions (cr : CentralInstance) (c : ConditionValue) : CentralInstance :=
  { cr with readyCondition := some c }

/-- `meta.SetExternalName(cr, id)`: bind the external-name annotation. -/
def setExternalName (cr : CentralInstance) (id : String) : CentralInstance :=
  { cr with externalName := id }

/-- An `*http.Response` as consulted by the controller (only the status code
is read). -/
structure HTTPResponse where
  statusCode : Nat
deriving DecidableEq, Repr

/-- Result triple of `PublicAPI.GetCentralById`. -/
structure GetResult where
  central : CentralRequest
  resp : Option HTTPResponse
  err : Option String
deriving Repr

/-- Result triple of `PublicAPI.CreateCentral` (the `*http.Response` is
discarded by the controller). -/
structure CreateResult where
  central : CentralRequest
  err : Option String
deriving Repr

/-- Result pair of `PublicAPI.DeleteCentralById` (the `*http.Response` is
discarded by the controller). -/
structure DeleteResult where
  err : Option String
deriving Repr

/-- The fleet-manager client `fleetmanager.PublicAPI`, as a record of
response functions. -/
structure Client where
  getCentralById : String → GetResult
  createCentral : Bool → CentralRequestPayload → CreateResult
  deleteCentralById : String → Bool → DeleteResult

/-- A remote call issued through the client, recorded with its arguments. -/
inductive RemoteCall where
  | get (id : String)
  | create (async : Bool) (payload : CentralRequestPayload)
  | delete (id : String) (async : Bool)
deriving DecidableEq, Repr

/-- `managed.ExternalObservation`, restricted to the fields the controller
sets. -/
structure ExternalObservation where
  resourceExists : Bool
  resourceUpToDate : Bool
  diff : String
deriving DecidableEq, Repr

/-- `generateObservation`: build the observation record wholesale from a
remote `CentralRequest`. -/
def generateObservation (inReq : CentralRequest) : CentralInstanceObservation :=
  { centralDataURL := inReq.centralDataURL
    centralUIURL := inReq.centralUIURL
    cloudAccountID := inReq.cloudAccountId
    cloudProvider := inReq.cloudProvider
    createdAt := inReq.createdAt
    failedReason := inReq.failedReason
    href := inReq.href
    id := inReq.id
    instanceType := inReq.instanceType
    kind := inReq.kind
    multiAZ := inReq.multiAz
    name := inReq.name
    owner := inReq.owner
    region := inReq.region
    status := inReq.status
    updatedAt := inReq.updatedAt
    version := inReq.version }

/-- `getCondition`: translate a remote status token into a lifecycle
condition, following the `switch` of the source. -/
def getCondition (status : String) : ConditionValue :=
  if status = CentralRequestStatusAccepted ∨ status = CentralRequestStatusPreparing ∨
      status = CentralRequestStatusProvisioning then
    ConditionValue.creating
  else if status = CentralRequestStatusReady then
    ConditionValue.available
  else if status = CentralRequestStatusDeprovision ∨ status = CentralRequestStatusDeleting then
    ConditionValue.deleting
  else
    ConditionValue.unavailable

/-- Modelled from the spec: `cmp.Diff` of the go-cmp library (an external
collaborator, not part of this repository) with `cmpopts.EquateEmpty`.  On
`CentralInstanceParameters` every field is a scalar string or boolean, so
`EquateEmpty` has no effect and the diff is empty exactly when the two
records are equal; otherwise go-cmp renders a non-empty `-want +got`
report, modelled here by a simple non-empty rendering. -/
def cmpDiff (want got : CentralInstanceParameters) : String :=
  if want = got then ""
  else "- " ++ reprStr want ++ "\n+ " ++ reprStr got

/-- `isUpToDate`: compare the desired spec against the creation-relevant
fields of the observed remote entity; return the up-to-date flag and the
diff text. -/
def isUpToDate (inCr : CentralInstance) (observed : CentralRequest) : Bool × String :=
  let observedParams : CentralInstanceParameters :=
    { name := observed.name
      cloudProvider := observed.cloudProvider
      region := observed.region
      multiAZ := observed.multiAz
      cloudAccountID := "" }
  let diff := cmpDiff inCr.forProvider observedParams
  if diff ≠ "" then
    (false, "Observed difference in central instance\n" ++ diff)
  else
    (true, "")

/-- Output of `external.Observe`: the returned observation and error, the
(possibly mutated) managed resource, and the remote calls issued. -/
structure ObserveOutput where
  obs : ExternalObservation
  err : Option String
  mg : Managed
  calls : List RemoteCall
deriving Repr

/-- `external.Observe`: fetch the remote entity by the bound external name,
refresh the observation, derive the condition, and detect drift. -/
def Observe (client : Client) (mg : Managed) : ObserveOutput :=
  match mg with
  | Managed.otherKind =>
    ⟨⟨false, false, ""⟩, some errNotCentralInstance, mg, []⟩
  | Managed.centralInstance cr =>
    let r := client.getCentralById cr.externalName
    let calls := [RemoteCall.get cr.externalName]
    match r.err with
    | some e =>
      if r.resp = some ⟨404⟩ then
        ⟨⟨false, false, ""⟩, none, mg, calls⟩
      else
        ⟨⟨false, false, ""⟩, wrapErr errGetFailed (some e), mg, calls⟩
    | none =>
      let cr1 := { cr with atProvider := generateObservation r.central }
      let condition := getCondition cr1.atProvider.status
      let cr2 := setConditions cr1 condition
      let upDiff := isUpToDate cr2 r.central
      ⟨⟨true, upDiff.1, upDiff.2⟩, none, Managed.centralInstance cr2, calls⟩

/-- Output of `external.Create`. -/
structure CreateOutput where
  err : Option String
  mg : Managed
  calls : List RemoteCall
deriving Repr

/-- The creation payload `Create` builds from the desired spec fields. -/
def createPayload (p : CentralInstanceParameters) : CentralRequestPayload :=
  { cloudAccountId := p.cloudAccountID
    cloudProvider := p.cloudProvider
    multiAz := p.multiAZ
    name := p.name
    region := p.region }

/-- `external.Create`: set the condition to Creating, issue the remote
create, and on success bind the remote-assigned identifier. -/
def Create (client : Client) (mg : Managed) : CreateOutput :=
  match mg with
  | Managed.otherKind => ⟨some errNotCentralInstance, mg, []⟩
  | Managed.centralInstance cr =>
    let cr1 := setConditions cr ConditionValue.creating
    let request := createPayload cr1.forProvider
    let r := client.createCentral true request
    let cr2 := match r.err with
      | none => setExternalName cr1 r.central.id
      | some _ => cr1
    ⟨wrapErr errCreateFailed r.err, Managed.centralInstance cr2, [RemoteCall.create true request]⟩

/-- Output of `external.Delete`. -/
structure DeleteOutput where
  err : Option String
  mg : Managed
  calls : List RemoteCall
deriving Repr

/-- `external.Delete`: issue the remote delete, addressed by the observed
status identifier `Status.AtProvider.ID`. -/
def Delete (client : Client) (mg : Managed) : DeleteOutput :=
  match mg with
  | Managed.otherKind => ⟨some errNotCentralInstance, mg, []⟩
  | Managed.centralInstance cr =>
    let r := client.deleteCentralById cr.atProvider.id true
    ⟨wrapErr errDeleteFailed r.err, mg, [RemoteCall.delete cr.atProvider.id true]⟩

/-- Output of `external.Update`. -/
structure UpdateOutput where
  err : Option String
  mg : Managed
  calls : List RemoteCall
deriving Repr

/-- `external.Update`: a no-op while the Ready condition is Creating or
Deleting, otherwise delegate to `Delete` and wrap its error. -/
def Update (client : Client) (mg : Managed) : UpdateOutput :=
  match mg with
  | Managed.otherKind => ⟨some errNotCentralInstance, mg, []⟩
  | Managed.centralInstance cr =>
    if cr.readyCondition = some ConditionValue.creating ∨
        cr.readyCondition = some ConditionValue.deleting then
      ⟨none, mg, []⟩
    else
      let d := Delete client mg
      ⟨wrapErr errUpdateFailed d.err, d.mg, d.calls⟩

/-! Concrete fixtures, mirroring the repository's unit tests
(`centralinstance_test.go`). -/

/-- The desired parameters of the tests' `centralInstance` fixture. -/
def testParams : CentralInstanceParameters :=
  { name := "test-central"
    cloudProvider := "aws"
    region := "us-east-1"
    multiAZ := true
    cloudAccountID := "" }

/-- A `CentralRequest` with every field empty (`public.CentralRequest{}`). -/
def emptyCentral : CentralRequest :=
  { id := "", name := "", cloudProvider := "", region := "", multiAz := false
    cloudAccountId := "", status := "", centralDataURL := "", centralUIURL := ""
    createdAt := 0, updatedAt := 0, failedReason := "", href := ""
    instanceType := "", kind := "", owner := "", version := "" }

/-- The remote `centralRequest` fixture of the tests. -/
def testCentral : CentralRequest :=
  { emptyCentral with
    id := "test-id"
    name := "test-central"
    cloudProvider := "aws"
    region := "us-east-1"
    multiAz := true
    status := "ready" }

/-- The `centralInstance` fixture of the tests: external name bound to the
object name, observation mirroring the remote entity, no condition set. -/
def testCR : CentralInstance :=
  { externalName := "test-central"
    forProvider := testParams
    atProvider :=
      { centralDataURL := "", centralUIURL := "", cloudAccountID := ""
        cloudProvider := "aws", createdAt := 0, failedReason := "", href := ""
        id := "test-id", instanceType := "", kind := "", multiAZ := true
        name := "test-central", owner := "", region := "us-east-1"
        status := "ready", updatedAt := 0, version := "" }
    readyCondition := none }

/-- A client whose calls all succeed, returning the test fixture. -/
def okClient : Client :=
  { getCentralById := fun _ => ⟨testCentral, none, none⟩
    createCentral := fun _ _ => ⟨testCentral, none⟩
    deleteCentralById := fun _ _ => ⟨none⟩ }

/-- A client whose get fails with an HTTP 404 response. -/
def notFoundClient : Client :=
  { getCentralById := fun _ => ⟨emptyCentral, some ⟨404⟩, some "central not found"⟩
    createCentral := fun _ _ => ⟨testCentral, none⟩
    deleteCentralById := fun _ _ => ⟨none⟩ }

/-- A client whose get fails with a transport error and no HTTP response. -/
def transportErrClient : Client :=
  { getCentralById := fun _ => ⟨emptyCentral, none, some "connection refused"⟩
    createCentral := fun _ _ => ⟨testCentral, some "connection refused"⟩
    deleteCentralById := fun _ _ => ⟨some "connection refused"⟩ }

/-- A client whose delete fails with the tests' sentinel error, used to show
that a remote delete call was in fact issued. -/
def deleteSentinelClient : Client :=
  { getCentralById := fun _ => ⟨testCentral, none, none⟩
    createCentral := fun _ _ => ⟨testCentral, none⟩
    deleteCentralById := fun _ _ => ⟨some "should never reach this error"⟩ }

/-- An observation record with every field empty
(`v1alpha1.CentralInstanceObservation{}`). -/
def emptyObservation : CentralInstanceObservation :=
  { centralDataURL := "", centralUIURL := "", cloudAccountID := "", cloudProvider := ""
    createdAt := 0, failedReason := "", href := "", id := "", instanceType := ""
    kind := "", multiAZ := false, name := "", owner := "", region := ""
    status := "", updatedAt := 0, version := "" }

/-- A fresh resource whose external identifier is not yet bound and which has
never been observed. -/
def unboundCR : CentralInstance :=
  { externalName := ""
    forProvider := testParams
    atProvider := emptyObservation
    readyCondition := none }

/-- The tests' fixture for a delete already in progress: observed status
`deprovision`, Ready condition Deleting. -/
def deprovisionCR : CentralInstance :=
  { testCR with
    atProvider := { testCR.atProvider with status := "deprovision" }
    readyCondition := some ConditionValue.deleting }

/-- The test fixture with the Ready condition set to Creating. -/
def creatingCR : CentralInstance :=
  { testCR with readyCondition := some ConditionValue.creating }

/-- A resource whose external identifier is bound but which has never been
observed, so that `Status.AtProvider.ID` is still empty. -/
def boundUnobservedCR : CentralInstance :=
  { unboundCR with externalName := "bound-id" }

/-! Helper lemmas shared by the claim theorems. -/

/-- The diff header produced by `isUpToDate` makes the diff text non-empty. -/
lemma diffHeader_append_ne_empty (t : String) :
    ("Observed difference in central instance\n" ++ t) ≠ "" := by
  intro h
  have hl : ("Observed difference in central instance\n" ++ t).length = 0 := by
    rw [h]; decide
  rw [String.length_append] at hl
  have h0 : ("Observed difference in central instance\n").length = 40 := by decide
  omega

/-- `isUpToDate` returns the flag `true` exactly when it returns an empty
diff, and a non-empty diff whenever the flag is `false`. -/
lemma isUpToDate_flag_iff_diff (cr : CentralInstance) (observed : CentralRequest) :
    ((isUpToDate cr observed).1 = true ↔ (isUpToDate cr observed).2 = "") ∧
    ((isUpToDate cr observed).1 = false → (isUpToDate cr observed).2 ≠ "") := by
  simp only [isUpToDate]
  split
  · refine ⟨⟨fun hh => by simp_all, fun hh => absurd hh (diffHeader_append_ne_empty _)⟩,
      fun _ => diffHeader_append_ne_empty _⟩
  · simp

/-- Setting a condition leaves the desired spec untouched. -/
lemma setConditions_forProvider (cr : CentralInstance) (c : ConditionValue) :
    (setConditions cr c).forProvider = cr.forProvider := rfl

/-- `Observe` on a CentralInstance issues exactly one get call, keyed by the
external name, in every branch. -/
lemma Observe_calls_eq (client : Client) (cr : CentralInstance) :
    (Observe client (Managed.centralInstance cr)).calls =
      [RemoteCall.get cr.externalName] := by
  simp only [Observe]
  split
  · split <;> rfl
  · rfl

/-- `Delete` on a CentralInstance unfolds to a single remote delete keyed by
the observed status identifier, leaving the resource untouched. -/
lemma Delete_eq (client : Client) (cr : CentralInstance) :
    Delete client (Managed.centralInstance cr) =
      ⟨wrapErr errDeleteFailed (client.deleteCentralById cr.atProvider.id true).err,
       Managed.centralInstance cr,
       [RemoteCall.delete cr.atProvider.id true]⟩ := rfl

/-! Claim theorems. -/

/-- C1: the status mapper is a total, deterministic function from remote
status tokens to lifecycle conditions: `accepted`, `preparing` and
`provisioning` map to Creating; `ready` maps to Available; `deprovision`
and `deleting` map to Deleting; and any other token (including `failed`
and any unrecognized string) maps to Unavailable. -/
theorem C1_getCondition_total (s : String) :
    ((s = "accepted" ∨ s = "preparing" ∨ s = "provisioning") →
      getCondition s = ConditionValue.creating) ∧
    (s = "ready" → getCondition s = ConditionValue.available) ∧
    ((s = "deprovision" ∨ s = "deleting") → getCondition s = ConditionValue.deleting) ∧
    (s ≠ "accepted" → s ≠ "preparing" → s ≠ "provisioning" → s ≠ "ready" →
      s ≠ "deprovision" → s ≠ "deleting" → getCondition s = ConditionValue.unavailable) := by
  refine ⟨fun h => ?_, fun h => ?_, fun h => ?_, fun h1 h2 h3 h4 h5 h6 => ?_⟩
  · rcases h with h | h | h <;> subst h <;> decide
  · subst h; decide
  · rcases h with h | h <;> subst h <;> decide
  · simp only [getCondition, CentralRequestStatusAccepted, CentralRequestStatusPreparing,
      CentralRequestStatusProvisioning, CentralRequestStatusReady,
      CentralRequestStatusDeprovision, CentralRequestStatusDeleting]
    rw [if_neg (not_or.mpr ⟨h1, not_or.mpr ⟨h2, h3⟩⟩), if_neg h4,
      if_neg (not_or.mpr ⟨h5, h6⟩)]

/-- Witness for C1 at the token `failed`. -/
theorem C1_getCondition_total_w : getCondition "failed" = ConditionValue.unavailable :=
  (C1_getCondition_total "failed").2.2.2 (by decide) (by decide) (by decide)
    (by decide) (by decide) (by decide)

/-- C3: for every resource and every remote get failure carrying an HTTP 404
response, Observe returns exists=false and a nil error, and leaves the
resource unchanged, regardless of prior local state. -/
theorem C3_observe_notFound (client : Client) (cr : CentralInstance) (e : String)
    (herr : (client.getCentralById cr.externalName).err = some e)
    (hresp : (client.getCentralById cr.externalName).resp = some ⟨404⟩) :
    (Observe client (Managed.centralInstance cr)).obs.resourceExists = false ∧
    (Observe client (Managed.centralInstance cr)).err = none ∧
    (Observe client (Managed.centralInstance cr)).mg = Managed.centralInstance cr := by
  simp only [Observe, herr, hresp, if_pos rfl]
  exact ⟨rfl, rfl, rfl⟩

/-- Witness for C3 on the test fixture and the 404-responding client. -/
theorem C3_observe_notFound_w :
    (Observe notFoundClient (Managed.centralInstance testCR)).obs.resourceExists = false ∧
    (Observe notFoundClient (Managed.centralInstance testCR)).err = none ∧
    (Observe notFoundClient (Managed.centralInstance testCR)).mg =
      Managed.centralInstance testCR :=
  C3_observe_notFound notFoundClient testCR "central not found" rfl rfl

/-- C4: for every resource and every remote get failure that is not an HTTP
404 response, Observe returns a non-nil error wrapped with the get-failed
tag and leaves the resource (observed state and condition) exactly as it
was. -/
theorem C4_observe_transport_error (client : Client) (cr : CentralInstance) (e : String)
    (herr : (client.getCentralById cr.externalName).err = some e)
    (hresp : (client.getCentralById cr.externalName).resp ≠ some ⟨404⟩) :
    (Observe client (Managed.centralInstance cr)).err =
      some (errGetFailed ++ ": " ++ e) ∧
    (Observe client (Managed.centralInstance cr)).err ≠ none ∧
    (Observe client (Managed.centralInstance cr)).mg = Managed.centralInstance cr := by
  simp only [Observe, herr, hresp, if_neg hresp, wrapErr]
  exact ⟨rfl, by simp, rfl⟩

/-- Witness for C4 on the test fixture and a transport-failing client. -/
theorem C4_observe_transport_error_w :
    (Observe transportErrClient (Managed.centralInstance testCR)).err =
      some (errGetFailed ++ ": " ++ "connection refused") ∧
    (Observe transportErrClient (Managed.centralInstance testCR)).err ≠ none ∧
    (Observe transportErrClient (Managed.centralInstance testCR)).mg =
      Managed.centralInstance testCR :=
  C4_observe_transport_error transportErrClient testCR "connection refused" rfl (by decide)

/-- C2, counterexample: on a resource whose external identifier is unbound
(empty), Observe still issues a remote get call (keyed by the empty
identifier), and when the remote answers that get successfully the result
is exists=true — contradicting the claim that no remote call is made and
that the result is always "does not exist". -/
theorem C2_cex_observe_unbound_calls_remote :
    (Observe okClient (Managed.centralInstance unboundCR)).calls = [RemoteCall.get ""] ∧
    (Observe okClient (Managed.centralInstance unboundCR)).calls ≠ [] ∧
    (Observe okClient (Managed.centralInstance unboundCR)).obs.resourceExists = true := by
  refine ⟨rfl, by decide, rfl⟩

/-- C2, amended: when the external identifier is unbound (empty), Observe
still issues a single remote get keyed by the empty identifier; the outcome
then follows the remote response exactly as in the bound case — in
particular a 404-failure yields exists=false with no error. -/
theorem C2_observe_unbound_amended (client : Client) (cr : CentralInstance)
    (h : cr.externalName = "") :
    (Observe client (Managed.centralInstance cr)).calls = [RemoteCall.get ""] ∧
    (((client.getCentralById "").err.isSome ∧ (client.getCentralById "").resp = some ⟨404⟩) →
      (Observe client (Managed.centralInstance cr)).obs.resourceExists = false ∧
      (Observe client (Managed.centralInstance cr)).err = none) := by
  constructor
  · rw [Observe_calls_eq, h]
  · rintro ⟨hs, hresp⟩
    rcases herr : (client.getCentralById "").err with _ | e
    · rw [herr] at hs; simp at hs
    · rw [← h] at herr hresp
      simp only [Observe, herr, hresp, if_pos rfl]
      exact ⟨rfl, rfl⟩

/-- Witness for C2 (amended) on the unbound fixture and the 404 client. -/
theorem C2_observe_unbound_amended_w :
    (Observe notFoundClient (Managed.centralInstance unboundCR)).calls =
      [RemoteCall.get ""] ∧
    (((notFoundClient.getCentralById "").err.isSome ∧
        (notFoundClient.getCentralById "").resp = some ⟨404⟩) →
      (Observe notFoundClient (Managed.centralInstance unboundCR)).obs.resourceExists = false ∧
      (Observe notFoundClient (Managed.centralInstance unboundCR)).err = none) :=
  C2_observe_unbound_amended notFoundClient unboundCR rfl

/-- C5: on the repository's own "delete already in progress" fixture
(observed status `deprovision`), Delete still issues the remote delete call
and surfaces its error — the idempotent short-circuit claimed by the spec
and expected by the unit test `delete already in progress` is absent from
the code. -/
theorem C5_delete_deprovision_still_calls_remote :
    deprovisionCR.atProvider.status = "deprovision" ∧
    (Delete deleteSentinelClient (Managed.centralInstance deprovisionCR)).calls =
      [RemoteCall.delete "test-id" true] ∧
    (Delete deleteSentinelClient (Managed.centralInstance deprovisionCR)).err =
      some (errDeleteFailed ++ ": " ++ "should never reach this error") := by
  refine ⟨rfl, rfl, rfl⟩

/-- C6: on the repository's own "delete success" fixture, Delete returns the
resource completely unchanged — in particular it never sets the Deleting
condition that the spec claims and the unit test `delete success`
expects. -/
theorem C6_delete_sets_no_condition :
    (Delete okClient (Managed.centralInstance testCR)).mg =
      Managed.centralInstance testCR ∧
    testCR.readyCondition ≠ some ConditionValue.deleting := by
  refine ⟨rfl, by decide⟩

/-- C7: when the Ready condition is Creating or Deleting, Update is a no-op
(no remote call, resource unchanged, nil error); otherwise Update delegates
to Delete and wraps any error from the delegated Delete as an update
failure. -/
theorem C7_update_noop_or_delegates (client : Client) (cr : CentralInstance) :
    ((cr.readyCondition = some ConditionValue.creating ∨
        cr.readyCondition = some ConditionValue.deleting) →
      Update client (Managed.centralInstance cr) =
        ⟨none, Managed.centralInstance cr, []⟩) ∧
    (cr.readyCondition ≠ some ConditionValue.creating →
      cr.readyCondition ≠ some ConditionValue.deleting →
      Update client (Managed.centralInstance cr) =
        ⟨wrapErr errUpdateFailed (Delete client (Managed.centralInstance cr)).err,
         (Delete client (Managed.centralInstance cr)).mg,
         (Delete client (Managed.centralInstance cr)).calls⟩) := by
  constructor
  · intro h
    simp only [Update, if_pos h]
  · intro h1 h2
    simp only [Update, if_neg (not_or.mpr ⟨h1, h2⟩)]

/-- Witness for C7 on the Creating-condition fixture. -/
theorem C7_update_noop_or_delegates_w :
    Update deleteSentinelClient (Managed.centralInstance creatingCR) =
      ⟨none, Managed.centralInstance creatingCR, []⟩ :=
  (C7_update_noop_or_delegates deleteSentinelClient creatingCR).1 (Or.inl rfl)

/-- C8: Create issues exactly one remote create built from the desired spec;
the resulting resource carries the Creating condition whatever the outcome;
on success the remote-assigned identifier is bound as the external name and
no error is returned; on failure the external name is left unchanged and a
wrapped error is returned. -/
theorem C8_create_binds_on_success (client : Client) (cr : CentralInstance) :
    (Create client (Managed.centralInstance cr)).calls =
      [RemoteCall.create true (createPayload cr.forProvider)] ∧
    ((client.createCentral true (createPayload cr.forProvider)).err = none →
      (Create client (Managed.centralInstance cr)).err = none ∧
      (Create client (Managed.centralInstance cr)).mg =
        Managed.centralInstance
          { setConditions cr ConditionValue.creating with
            externalName :=
              (client.createCentral true (createPayload cr.forProvider)).central.id }) ∧
    (∀ e, (client.createCentral true (createPayload cr.forProvider)).err = some e →
      (Create client (Managed.centralInstance cr)).err =
        some (errCreateFailed ++ ": " ++ e) ∧
      (Create client (Managed.centralInstance cr)).mg =
        Managed.centralInstance (setConditions cr ConditionValue.creating)) := by
  refine ⟨rfl, fun h => ?_, fun e h => ?_⟩
  · simp only [Create, setConditions_forProvider, setExternalName, wrapErr, h]
    exact ⟨trivial, trivial⟩
  · simp only [Create, setConditions_forProvider, setExternalName, wrapErr, h]
    exact ⟨trivial, trivial⟩

/-- Witness for C8: a successful create on the fresh fixture binds the
remote-assigned identifier `test-id`. -/
theorem C8_create_binds_on_success_w :
    (Create okClient (Managed.centralInstance unboundCR)).err = none ∧
    (Create okClient (Managed.centralInstance unboundCR)).mg =
      Managed.centralInstance
        { setConditions unboundCR ConditionValue.creating with externalName := "test-id" } :=
  (C8_create_binds_on_success okClient unboundCR).2.1 rfl

/-- C9, counterexample: Delete does not address the remote entity by the
bound external identifier; it uses the last-observed status identifier
`Status.AtProvider.ID`.  On a resource whose external name is bound but
which has never been observed, the delete call is keyed by the empty
string, not by the bound identifier. -/
theorem C9_cex_delete_ignores_bound_id :
    boundUnobservedCR.externalName = "bound-id" ∧
    (Delete okClient (Managed.centralInstance boundUnobservedCR)).calls =
      [RemoteCall.delete "" true] ∧
    (Delete okClient (Managed.centralInstance boundUnobservedCR)).calls ≠
      [RemoteCall.delete boundUnobservedCR.externalName true] := by
  refine ⟨rfl, rfl, by decide⟩

/-- C9, amended: Observe's get is keyed by the bound external identifier,
while Delete — and Update when it delegates — key the remote delete by the
last-observed status identifier `Status.AtProvider.ID` (which coincides
with the bound identifier only after an observation has refreshed it); the
desired specification's name appears only inside the create payload and is
never used as a lookup key. -/
theorem C9_lookup_keys_amended (client : Client) (cr : CentralInstance) :
    (Observe client (Managed.centralInstance cr)).calls =
      [RemoteCall.get cr.externalName] ∧
    (Delete client (Managed.centralInstance cr)).calls =
      [RemoteCall.delete cr.atProvider.id true] ∧
    (cr.readyCondition ≠ some ConditionValue.creating →
      cr.readyCondition ≠ some ConditionValue.deleting →
      (Update client (Managed.centralInstance cr)).calls =
        [RemoteCall.delete cr.atProvider.id true]) ∧
    (Create client (Managed.centralInstance cr)).calls =
      [RemoteCall.create true (createPayload cr.forProvider)] := by
  refine ⟨Observe_calls_eq client cr, rfl, fun h1 h2 => ?_, rfl⟩
  simp only [Update, if_neg (not_or.mpr ⟨h1, h2⟩)]
  rfl

/-- Witness for C9 (amended) on the test fixture. -/
theorem C9_lookup_keys_amended_w :
    (Observe okClient (Managed.centralInstance testCR)).calls =
      [RemoteCall.get "test-central"] ∧
    (Delete okClient (Managed.centralInstance testCR)).calls =
      [RemoteCall.delete "test-id" true] ∧
    (Update okClient (Managed.centralInstance testCR)).calls =
      [RemoteCall.delete "test-id" true] ∧
    (Create okClient (Managed.centralInstance testCR)).calls =
      [RemoteCall.create true (createPayload testCR.forProvider)] := by
  have h := C9_lookup_keys_amended okClient testCR
  exact ⟨h.1, h.2.1, h.2.2.1 (by decide) (by decide), h.2.2.2⟩

/-- C10: on a successful observation, the up-to-date flag is true exactly
when the returned diff text is empty, and a false flag comes with a
non-empty diff. -/
theorem C10_uptodate_iff_empty_diff (client : Client) (cr : CentralInstance)
    (hok : (client.getCentralById cr.externalName).err = none) :
    ((Observe client (Managed.centralInstance cr)).obs.resourceUpToDate = true ↔
      (Observe client (Managed.centralInstance cr)).obs.diff = "") ∧
    ((Observe client (Managed.centralInstance cr)).obs.resourceUpToDate = false →
      (Observe client (Managed.centralInstance cr)).obs.diff ≠ "") := by
  simp only [Observe, hok]
  exact isUpToDate_flag_iff_diff _ _

/-- Witness for C10 on the test fixture and the successful client. -/
theorem C10_uptodate_iff_empty_diff_w :
    ((Observe okClient (Managed.centralInstance testCR)).obs.resourceUpToDate = true ↔
      (Observe okClient (Managed.centralInstance testCR)).obs.diff = "") ∧
    ((Observe okClient (Managed.centralInstance testCR)).obs.resourceUpToDate = false →
      (Observe okClient (Managed.centralInstance testCR)).obs.diff ≠ "") :=
  C10_uptodate_iff_empty_diff okClient testCR rfl

end ProviderRedhat
